import Mathlib

/-!
# node-compress: the gzip / gunzip codec adapters of src/gzip.cc

A shallow embedding of GzipUtils, GzipImpl and GunzipImpl.  The zlib
library itself (deflateInit2, deflate, inflateInit2, inflate) is an
external collaborator and enters as a parameter of type Codec.  Machine
integers are Nat / Int with the C conversions written out: int and
unsigned int (the uInt of zlib) have 32 bits, size_t has 64.
-/

namespace NodeCompress

/-! ## Constants of the system header zlib.h -/

/-- Status of zlib.h: progress was made. -/
def Z_OK : Int := 0
/-- Status of zlib.h: the end of the stream was reached. -/
def Z_STREAM_END : Int := 1
/-- Status of zlib.h: a preset dictionary is needed. -/
def Z_NEED_DICT : Int := 2
/-- Status of zlib.h: file system error. -/
def Z_ERRNO : Int := -1
/-- Status of zlib.h: inconsistent stream state or invalid argument. -/
def Z_STREAM_ERROR : Int := -2
/-- Status of zlib.h: corrupt input data. -/
def Z_DATA_ERROR : Int := -3
/-- Status of zlib.h: out of memory. -/
def Z_MEM_ERROR : Int := -4
/-- Status of zlib.h: no progress possible, output room or input missing. -/
def Z_BUF_ERROR : Int := -5
/-- Status of zlib.h: library version mismatch. -/
def Z_VERSION_ERROR : Int := -6

/-- Flush mode of zlib.h. -/
def Z_NO_FLUSH : Int := 0
/-- Flush mode of zlib.h. -/
def Z_FINISH : Int := 4
/-- Compression level of zlib.h that selects the default level. -/
def Z_DEFAULT_COMPRESSION : Int := -1
/-- Compression method of zlib.h. -/
def Z_DEFLATED : Int := 8
/-- Strategy of zlib.h. -/
def Z_DEFAULT_STRATEGY : Int := 0
/-- Largest window size exponent of zlib.h. -/
def MAX_WBITS : Int := 15

/-! ## Host values (the part of the v8 API that gzip.cc touches) -/

/-- A host-language value, as far as gzip.cc inspects or builds one.
Integer n is a number with integral value n, NonIntegral any other number. -/
inductive Value where
  | Undefined : Value
  | Null : Value
  | Boolean (b : Bool) : Value
  | Integer (n : Int) : Value
  | NonIntegral : Value
  | String (s : String) : Value
  | Object : Value
  | Error (message : String) : Value
  | TypeError (message : String) : Value
  deriving DecidableEq

namespace Value

/-- Value::IsUndefined. -/
def IsUndefined : Value → Bool
  | Undefined => true
  | _ => false

/-- Value::IsInt32: a number whose value is an integer of the signed 32-bit range. -/
def IsInt32 : Value → Bool
  | Integer n => decide (-2147483648 ≤ n ∧ n ≤ 2147483647)
  | _ => false

/-- Value::Int32Value, used only after IsInt32 has answered true. -/
def Int32Value : Value → Int
  | Integer n => n
  | _ => 0

end Value

/-! ## GzipUtils (gzip.cc lines 38-112) -/

namespace GzipUtils

def StatusOk : Int := Z_OK

def StatusSequenceError : Int := Z_STREAM_ERROR

def StatusMemoryError : Int := Z_MEM_ERROR

def StatusEndOfStream : Int := Z_STREAM_END

def IsError (gzipStatus : Int) : Bool :=
  !(gzipStatus == Z_OK || gzipStatus == Z_STREAM_END)

def NeedDictionary : String :=
  "Dictionary must be specified. Currently this is unsupported by library."
def Errno : String := "Z_ERRNO: Input/output error."
def StreamError : String :=
  "Z_STREAM_ERROR: Invalid arguments or stream state is inconsistent."
def DataError : String := "Z_DATA_ERROR: Input data corrupted."
def MemError : String := "Z_MEM_ERROR: Out of memory."
def BufError : String := "Z_BUF_ERROR: Buffer error."
def VersionError : String := "Z_VERSION_ERROR: Invalid library version."

def GetException (gzipStatus : Int) : Value :=
  if !IsError gzipStatus then
    Value.Undefined
  else if gzipStatus = Z_NEED_DICT then Value.Error NeedDictionary
  else if gzipStatus = Z_ERRNO then Value.Error Errno
  else if gzipStatus = Z_STREAM_ERROR then Value.Error StreamError
  else if gzipStatus = Z_DATA_ERROR then Value.Error DataError
  else if gzipStatus = Z_MEM_ERROR then Value.Error MemError
  else if gzipStatus = Z_BUF_ERROR then Value.Error BufError
  else if gzipStatus = Z_VERSION_ERROR then Value.Error VersionError
  else Value.Error "Unknown error"

end GzipUtils

/-! ## C integer conversions (unsigned int and int of 32 bits, size_t of 64) -/

/-- Conversion of an int to the uInt of a z_stream field. -/
def intToUInt (x : Int) : Nat := (x % 4294967296).toNat

/-- Conversion of a size_t to the uInt of a z_stream field. -/
def sizeToUInt (x : Nat) : Nat := x % 4294967296

/-- Conversion of a uInt to int (modulo 2^32, into the signed range). -/
def uIntToInt (x : Nat) : Int :=
  if x % 4294967296 < 2147483648 then ((x % 4294967296 : Nat) : Int)
  else ((x % 4294967296 : Nat) : Int) - 4294967296

/-- Subtraction of a uInt from a size_t, computed in size_t. -/
def subSizeT (a b : Nat) : Nat :=
  (a % 18446744073709551616 + 18446744073709551616 - b % 18446744073709551616)
    % 18446744073709551616

/-- Subtraction of two unsigned int, computed in unsigned int. -/
def subUInt (a b : Nat) : Nat :=
  (a % 4294967296 + 4294967296 - b % 4294967296) % 4294967296

/-! ## The codec boundary: z_stream and the zlib entry points -/

/-- The z_stream of zlib.h, as far as gzip.cc reads or writes it.  A pointer is
none for Z_NULL; next_in carries the bytes it points at, next_out is the offset
into the output storage; opaq stands for the field holding the private
data of the allocator; state is whatever the codec keeps between calls. -/
structure z_stream (σ : Type) where
  next_in : Option (List Nat)
  avail_in : Nat
  next_out : Nat
  avail_out : Nat
  zalloc : Option Nat
  zfree : Option Nat
  opaq : Option Nat
  state : σ

/-- The result of one codec step: status, stream afterwards, output storage afterwards. -/
structure StepResult (σ : Type) where
  ret : Int
  strm : z_stream σ
  mem : Nat → Nat

/-- The zlib entry points gzip.cc calls.  A step receives the stream, the
output storage that next_out points into, and the flush mode. -/
structure Codec (σ : Type) where
  deflateInit2 : z_stream σ → Int → Int → Int → Int → Int → Int × z_stream σ
  deflate : z_stream σ → (Nat → Nat) → Int → StepResult σ
  inflateInit2 : z_stream σ → Int → Int × z_stream σ
  inflate : z_stream σ → (Nat → Nat) → Int → StepResult σ

/-! ## The output buffer -/

/-- Modelled from the spec: ScopedOutputBuffer of utils.h is missing; this is
the GrowableBuffer of the spec, owned byte storage with a capacity and a
logical length. -/
structure Blob where
  data : Nat → Nat
  capacity : Nat
  length : Nat

namespace Blob

/-- Modelled from the spec: avail of utils.h is missing; the append room, the
number of free bytes available for the codec to write into. -/
def avail (b : Blob) : Nat := b.capacity - b.length

/-- Modelled from the spec: IncreaseLengthBy of utils.h is missing; commit
advances the length by n and fails when n exceeds the current append room. -/
def IncreaseLengthBy (b : Blob) (n : Nat) : Option Blob :=
  if n ≤ b.avail then some { b with length := b.length + n } else none

end Blob

/-! ## Results of the adapter methods -/

/-- What Init hands back: a returned value, or a thrown exception. -/
inductive Completion where
  | Return (v : Value) : Completion
  | Throw (exception : Value) : Completion
  deriving DecidableEq

/-- State after Write: the status returned, the int behind the dataLength
reference, the buffer and the stream. -/
structure WriteResult (σ : Type) where
  ret : Int
  dataLength : Int
  out : Blob
  stream_ : z_stream σ

/-- State after Finish: the status returned, the buffer and the stream. -/
structure FinishResult (σ : Type) where
  ret : Int
  out : Blob
  stream_ : z_stream σ

/-- The element args[i] of an Arguments object; Undefined beyond its length. -/
def argAt (args : List Value) (i : Nat) : Value := args.getD i Value.Undefined

/-! ## GzipImpl (gzip.cc lines 115-186) -/

namespace GzipImpl

open GzipUtils

/-- Lines 138-147 of Init, reached with the level settled. -/
def InitWithLevel {σ : Type} (zlib : Codec σ) (stream_ : z_stream σ) (level : Int) :
    Completion × z_stream σ :=
  let s1 := { stream_ with zalloc := none, zfree := none, opaq := none }
  match zlib.deflateInit2 s1 level Z_DEFLATED (16 + MAX_WBITS) 8 Z_DEFAULT_STRATEGY with
  | (ret, s2) =>
    if IsError ret then (Completion.Throw (GetException ret), s2)
    else (Completion.Return Value.Undefined, s2)

def Init {σ : Type} (zlib : Codec σ) (stream_ : z_stream σ) (args : List Value) :
    Completion × z_stream σ :=
  if args.length > 0 && !(argAt args 0).IsUndefined then
    if !(argAt args 0).IsInt32 then
      (Completion.Throw (Value.TypeError "level must be an integer"), stream_)
    else
      InitWithLevel zlib stream_ (argAt args 0).Int32Value
  else
    InitWithLevel zlib stream_ Z_DEFAULT_COMPRESSION

/-- The stream as Write hands it to deflate (lines 152-155). -/
def writeStream {σ : Type} (stream_ : z_stream σ) (data : List Nat) (dataLength : Int)
    (out : Blob) : z_stream σ :=
  { stream_ with
    next_in := some data
    avail_in := intToUInt dataLength
    next_out := out.length
    avail_out := sizeToUInt out.avail }

def Write {σ : Type} (zlib : Codec σ) (stream_ : z_stream σ) (data : List Nat)
    (dataLength : Int) (out : Blob) : Option (WriteResult σ) :=
  let s1 := writeStream stream_ data dataLength out
  let initAvail : Nat := s1.avail_out
  let r := zlib.deflate s1 out.data Z_NO_FLUSH
  let dataLength1 : Int := uIntToInt r.strm.avail_in
  let out1 : Blob := { out with data := r.mem }
  if !IsError r.ret then
    match out1.IncreaseLengthBy (subSizeT initAvail r.strm.avail_out) with
    | some out2 => some ⟨r.ret, dataLength1, out2, r.strm⟩
    | none => none
  else
    some ⟨r.ret, dataLength1, out1, r.strm⟩

/-- The stream as Finish hands it to deflate (lines 167-170). -/
def finishStream {σ : Type} (stream_ : z_stream σ) (out : Blob) : z_stream σ :=
  { stream_ with
    avail_in := 0
    next_in := none
    next_out := out.length
    avail_out := sizeToUInt out.avail }

def Finish {σ : Type} (zlib : Codec σ) (stream_ : z_stream σ) (out : Blob) :
    Option (FinishResult σ) :=
  let s1 := finishStream stream_ out
  let initAvail : Int := uIntToInt s1.avail_out
  let r := zlib.deflate s1 out.data Z_FINISH
  let out1 : Blob := { out with data := r.mem }
  if !IsError r.ret then
    match out1.IncreaseLengthBy (subUInt (intToUInt initAvail) r.strm.avail_out) with
    | some out2 => some ⟨r.ret, out2, r.strm⟩
    | none => none
  else
    some ⟨r.ret, out1, r.strm⟩

end GzipImpl

/-! ## GunzipImpl (gzip.cc lines 191-242) -/

namespace GunzipImpl

open GzipUtils

/-- The stream as Init hands it to inflateInit2 (lines 202-206). -/
def initStream {σ : Type} (stream_ : z_stream σ) : z_stream σ :=
  { stream_ with zalloc := none, zfree := none, opaq := none, avail_in := 0, next_in := none }

def Init {σ : Type} (zlib : Codec σ) (stream_ : z_stream σ) (_args : List Value) :
    Completion × z_stream σ :=
  match zlib.inflateInit2 (initStream stream_) MAX_WBITS with
  | (ret, s2) =>
    if IsError ret then (Completion.Throw (GetException ret), s2)
    else (Completion.Return Value.Undefined, s2)

/-- The stream as Write hands it to inflate (lines 217-220). -/
def writeStream {σ : Type} (stream_ : z_stream σ) (data : List Nat) (dataLength : Int)
    (out : Blob) : z_stream σ :=
  { stream_ with
    next_in := some data
    avail_in := intToUInt dataLength
    next_out := out.length
    avail_out := sizeToUInt out.avail }

def Write {σ : Type} (zlib : Codec σ) (stream_ : z_stream σ) (data : List Nat)
    (dataLength : Int) (out : Blob) : Option (WriteResult σ) :=
  let s1 := writeStream stream_ data dataLength out
  let initAvail : Nat := s1.avail_out
  let r := zlib.inflate s1 out.data Z_NO_FLUSH
  let dataLength1 : Int := uIntToInt r.strm.avail_in
  let out1 : Blob := { out with data := r.mem }
  if !IsError r.ret then
    match out1.IncreaseLengthBy (subSizeT initAvail r.strm.avail_out) with
    | some out2 => some ⟨r.ret, dataLength1, out2, r.strm⟩
    | none => none
  else
    some ⟨r.ret, dataLength1, out1, r.strm⟩

def Finish {σ : Type} (stream_ : z_stream σ) (out : Blob) : FinishResult σ :=
  ⟨Z_OK, out, stream_⟩

end GunzipImpl

/-! ## A stand-in codec for concrete runs

It stores bytes uncompressed.  Like zlib it installs its default allocators
where the caller left Z_NULL before it looks at any other parameter, checks
the level in deflateInit2, remembers the window-bits parameter of its initialisation,
answers Z_STREAM_ERROR to a step on a stream that was never initialised and
Z_BUF_ERROR to a deflate call without output room, and, when it was
initialised for zlib framing only (window bits below 16), answers
Z_DATA_ERROR to input that opens with the gzip magic bytes 1f 8b. -/

namespace Sample

/-- Copy as many bytes as input and output room allow. -/
def copyStep (s : z_stream (Option Int)) (mem : Nat → Nat) (ret : Int) :
    StepResult (Option Int) :=
  let inp := s.next_in.getD []
  let k := min (min s.avail_in s.avail_out) inp.length
  { ret := ret
    strm := { s with
      next_in := some (inp.drop k)
      avail_in := s.avail_in - k
      next_out := s.next_out + k
      avail_out := s.avail_out - k }
    mem := fun i => if s.next_out ≤ i ∧ i < s.next_out + k then inp.getD (i - s.next_out) 0
                    else mem i }

/-- The default allocation function of zlib, as a function pointer. -/
def zcalloc : Nat := 1

/-- The default release function of zlib, as a function pointer. -/
def zcfree : Nat := 2

/-- The first thing deflateInit2 and inflateInit2 of zlib do: where zalloc is
Z_NULL install zcalloc and clear the allocator data, where zfree is Z_NULL
install zcfree. -/
def installAllocators (s : z_stream (Option Int)) : z_stream (Option Int) :=
  { s with
    zalloc := some (s.zalloc.getD zcalloc)
    opaq := if s.zalloc = none then none else s.opaq
    zfree := some (s.zfree.getD zcfree) }

def storedCodec : Codec (Option Int) where
  deflateInit2 s level _method windowBits _memLevel _strategy :=
    if level = Z_DEFAULT_COMPRESSION ∨ (0 ≤ level ∧ level ≤ 9) then
      (Z_OK, { installAllocators s with state := some windowBits })
    else (Z_STREAM_ERROR, installAllocators s)
  deflate s mem flush :=
    if s.state = none then ⟨Z_STREAM_ERROR, s, mem⟩
    else if s.avail_out = 0 then ⟨Z_BUF_ERROR, s, mem⟩
    else copyStep s mem (if flush = Z_FINISH then Z_STREAM_END else Z_OK)
  inflateInit2 s windowBits := (Z_OK, { installAllocators s with state := some windowBits })
  inflate s mem _flush :=
    match s.state, s.next_in with
    | none, _ => ⟨Z_STREAM_ERROR, s, mem⟩
    | some w, some (31 :: 139 :: _) =>
      if w < 16 then ⟨Z_DATA_ERROR, s, mem⟩ else copyStep s mem Z_OK
    | some _, _ => copyStep s mem Z_OK

/-- A stream_ member before Init. -/
def freshStream : z_stream (Option Int) :=
  { next_in := none, avail_in := 0, next_out := 0, avail_out := 0
    zalloc := none, zfree := none, opaq := none, state := none }

/-- The stream_ member of a compressor after Init without arguments. -/
def gzipStream : z_stream (Option Int) := (GzipImpl.Init storedCodec freshStream []).2

/-- The stream_ member of a decompressor after Init. -/
def gunzipStream : z_stream (Option Int) := (GunzipImpl.Init storedCodec freshStream []).2

/-- An empty buffer with 16 bytes of room. -/
def smallBlob : Blob := { data := fun _ => 0, capacity := 16, length := 0 }

/-- A full buffer: 16 bytes written, no room. -/
def fullBlob : Blob := { data := fun _ => 0, capacity := 16, length := 16 }

/-- An empty buffer with 4 GiB + 16 bytes of room. -/
def hugeBlob : Blob := { data := fun _ => 0, capacity := 4294967312, length := 0 }

/-- Ten input bytes. -/
def tenBytes : List Nat := [1, 2, 3, 4, 5, 6, 7, 8, 9, 10]

end Sample

/-! ## Theorems: status classification -/

open GzipUtils

/-- C3: IsError is false exactly for Z_OK and Z_STREAM_END; StatusOk and
StatusEndOfStream are non-errors, StatusSequenceError and StatusMemoryError
are errors. -/
theorem IsError_false_iff_ok_or_stream_end (s : Int) :
    (IsError s = false ↔ (s = Z_OK ∨ s = Z_STREAM_END))
    ∧ IsError StatusOk = false
    ∧ IsError StatusEndOfStream = false
    ∧ IsError StatusSequenceError = true
    ∧ IsError StatusMemoryError = true := by
  refine ⟨?_, by decide, by decide, by decide, by decide⟩
  by_cases h1 : s = Z_OK <;> by_cases h2 : s = Z_STREAM_END <;> simp [IsError, h1, h2]

/-- C4, as stated, fails: the status Z_BUF_ERROR is classified as an error and
GetException builds an exception for it. -/
theorem buf_error_is_surfaced :
    IsError Z_BUF_ERROR ≠ false ∧ GetException Z_BUF_ERROR ≠ Value.Undefined := by
  constructor
  · decide
  · simp [GetException, IsError, Z_BUF_ERROR, Z_OK, Z_STREAM_END, Z_NEED_DICT, Z_ERRNO,
      Z_STREAM_ERROR, Z_DATA_ERROR, Z_MEM_ERROR]

/-- C4, amended: Z_STREAM_END is never surfaced as an error (IsError false, no
exception), whereas Z_BUF_ERROR is an error whose exception carries the
message of the constant BufError. -/
theorem stream_end_not_error_buf_error_is :
    IsError Z_STREAM_END = false
    ∧ GetException Z_STREAM_END = Value.Undefined
    ∧ IsError Z_BUF_ERROR = true
    ∧ GetException Z_BUF_ERROR = Value.Error "Z_BUF_ERROR: Buffer error." := by
  refine ⟨by decide, ?_, by decide, ?_⟩
  · simp [GetException, IsError, Z_STREAM_END]
  · simp [GetException, IsError, Z_BUF_ERROR, Z_OK, Z_STREAM_END, Z_NEED_DICT, Z_ERRNO,
      Z_STREAM_ERROR, Z_DATA_ERROR, Z_MEM_ERROR, BufError]

/-- Shared: GetException on a non-error status. -/
theorem GetException_of_not_error (s : Int) (h : IsError s = false) :
    GetException s = Value.Undefined := by
  simp [GetException, h]

/-- Shared: on an error status GetException builds an Error with a non-empty message. -/
theorem GetException_of_error (s : Int) (h : IsError s = true) :
    ∃ msg, GetException s = Value.Error msg ∧ msg ≠ "" := by
  unfold GetException
  simp only [h, Bool.not_true, Bool.false_eq_true, if_false]
  split_ifs
  · exact ⟨_, rfl, by decide⟩
  · exact ⟨_, rfl, by decide⟩
  · exact ⟨_, rfl, by decide⟩
  · exact ⟨_, rfl, by decide⟩
  · exact ⟨_, rfl, by decide⟩
  · exact ⟨_, rfl, by decide⟩
  · exact ⟨_, rfl, by decide⟩
  · exact ⟨_, rfl, by decide⟩

/-- Shared: IsError in terms of the two non-error statuses. -/
theorem IsError_eq_true_iff (s : Int) :
    IsError s = true ↔ ¬ (s = Z_OK ∨ s = Z_STREAM_END) := by
  by_cases h1 : s = Z_OK <;> by_cases h2 : s = Z_STREAM_END <;> simp [IsError, h1, h2]

/-- C5: GetException returns Undefined exactly for Z_OK and Z_STREAM_END; for
every other status it returns an Error with a non-empty message, and for a
status outside the seven named error codes the message is Unknown error. -/
theorem GetException_never_swallows (s : Int) :
    (GetException s = Value.Undefined ↔ (s = Z_OK ∨ s = Z_STREAM_END))
    ∧ (¬ (s = Z_OK ∨ s = Z_STREAM_END) →
        ∃ msg, GetException s = Value.Error msg ∧ msg ≠ "")
    ∧ (¬ (s = Z_OK ∨ s = Z_STREAM_END) → s ≠ Z_NEED_DICT → s ≠ Z_ERRNO →
        s ≠ Z_STREAM_ERROR → s ≠ Z_DATA_ERROR → s ≠ Z_MEM_ERROR → s ≠ Z_BUF_ERROR →
        s ≠ Z_VERSION_ERROR → GetException s = Value.Error "Unknown error") := by
  refine ⟨?_, ?_, ?_⟩
  · constructor
    · intro hu
      by_contra hne
      obtain ⟨msg, hmsg, _⟩ := GetException_of_error s ((IsError_eq_true_iff s).2 hne)
      rw [hmsg] at hu
      exact Value.noConfusion hu
    · intro hs
      apply GetException_of_not_error
      by_contra hne
      exact (IsError_eq_true_iff s).1 (by simpa using hne) hs
  · intro hne
    exact GetException_of_error s ((IsError_eq_true_iff s).2 hne)
  · intro hne h1 h2 h3 h4 h5 h6 h7
    have he : IsError s = true := (IsError_eq_true_iff s).2 hne
    simp [GetException, he, h1, h2, h3, h4, h5, h6, h7]

/-- C5 at the statuses Z_DATA_ERROR and 42. -/
theorem GetException_never_swallows_witness :
    (∃ msg, GetException Z_DATA_ERROR = Value.Error msg ∧ msg ≠ "")
    ∧ GetException 42 = Value.Error "Unknown error" :=
  ⟨(GetException_never_swallows Z_DATA_ERROR).2.1 (by decide),
   (GetException_never_swallows 42).2.2 (by decide) (by decide) (by decide) (by decide)
     (by decide) (by decide) (by decide) (by decide)⟩

/-! ## Theorems: initialisation -/

/-- C2, evaluated: whatever the codec, GzipImpl.Init (no level given) calls
deflateInit2 with window bits 31, that is 16 + MAX_WBITS, and GunzipImpl.Init
calls inflateInit2 with window bits 15, that is MAX_WBITS alone, which is not
the value the compressor uses; the stand-in codec records 31 and 15. -/
theorem Init_window_bits (σ : Type) (zlib : Codec σ) (stream_ : z_stream σ)
    (args : List Value) :
    (GzipImpl.Init zlib stream_ []).2
        = (zlib.deflateInit2 { stream_ with zalloc := none, zfree := none, opaq := none }
            (-1) 8 31 8 0).2
    ∧ (GunzipImpl.Init zlib stream_ args).2
        = (zlib.inflateInit2 (GunzipImpl.initStream stream_) 15).2
    ∧ (15 : Int) ≠ 16 + MAX_WBITS
    ∧ (GzipImpl.Init Sample.storedCodec Sample.freshStream []).2.state = some (16 + MAX_WBITS)
    ∧ (GunzipImpl.Init Sample.storedCodec Sample.freshStream []).2.state = some MAX_WBITS := by
  refine ⟨?_, ?_, by decide, ?_, ?_⟩
  · simp only [GzipImpl.Init, GzipImpl.InitWithLevel, List.length_nil, gt_iff_lt, lt_self_iff_false,
      decide_False, Bool.false_and, Bool.false_eq_true, if_false, Z_DEFAULT_COMPRESSION,
      Z_DEFLATED, MAX_WBITS, Z_DEFAULT_STRATEGY]
    split_ifs <;> rfl
  · simp only [GunzipImpl.Init, MAX_WBITS]
    split_ifs <;> rfl
  · rfl
  · rfl

/-- C7: GunzipImpl.Finish returns Z_OK and leaves the output buffer (length,
capacity, contents) and the codec stream unchanged. -/
theorem GunzipImpl_Finish_noop (σ : Type) (stream_ : z_stream σ) (out : Blob) :
    (GunzipImpl.Finish stream_ out).ret = Z_OK
    ∧ (GunzipImpl.Finish stream_ out).out = out
    ∧ (GunzipImpl.Finish stream_ out).out.length = out.length
    ∧ (GunzipImpl.Finish stream_ out).out.data = out.data
    ∧ (GunzipImpl.Finish stream_ out).stream_ = stream_ :=
  ⟨rfl, rfl, rfl, rfl, rfl⟩

/-- Shared: an int that went through uInt and back, as uInt again. -/
theorem intToUInt_uIntToInt (x : Nat) : intToUInt (uIntToInt x) = x % 4294967296 := by
  unfold intToUInt uIntToInt
  split_ifs <;> omega

/-- Shared: the size_t difference of Write when the codec left no more room than offered. -/
theorem subSizeT_offered (r o : Nat) (h : o ≤ sizeToUInt r) :
    subSizeT (sizeToUInt r) o = r % 4294967296 - o := by
  unfold subSizeT sizeToUInt at *
  omega

/-- Shared: the unsigned difference of Finish when the codec left no more room than offered. -/
theorem subUInt_offered (r o : Nat) (h : o ≤ sizeToUInt r) :
    subUInt (intToUInt (uIntToInt (sizeToUInt r))) o = r % 4294967296 - o := by
  rw [intToUInt_uIntToInt]
  unfold subUInt sizeToUInt at *
  omega

/-- Shared: a non-negative int keeps its value as uInt. -/
theorem intToUInt_of_range (n : Int) (h0 : 0 ≤ n) (h1 : n < 2147483648) :
    (intToUInt n : Int) = n := by
  unfold intToUInt
  omega

/-- Shared: a uInt below 2^31 keeps its value as int. -/
theorem uIntToInt_of_small (a : Nat) (h : a < 2147483648) : uIntToInt a = a := by
  unfold uIntToInt
  split_ifs <;> omega

/-- Shared: a commit within the append room succeeds. -/
theorem Blob_IncreaseLengthBy_of_le (b : Blob) (n : Nat) (h : n ≤ b.avail) :
    b.IncreaseLengthBy n = some { b with length := b.length + n } := by
  simp [Blob.IncreaseLengthBy, h]

/-- Shared: GzipImpl.Write after a non-error step that left no more room than offered. -/
theorem GzipImpl_Write_of_ok (σ : Type) (zlib : Codec σ) (stream_ : z_stream σ)
    (data : List Nat) (n : Int) (out : Blob)
    (hok : IsError (zlib.deflate (GzipImpl.writeStream stream_ data n out) out.data
      Z_NO_FLUSH).ret = false)
    (ho : (zlib.deflate (GzipImpl.writeStream stream_ data n out) out.data
      Z_NO_FLUSH).strm.avail_out ≤ out.avail % 4294967296) :
    GzipImpl.Write zlib stream_ data n out
      = some ⟨(zlib.deflate (GzipImpl.writeStream stream_ data n out) out.data Z_NO_FLUSH).ret,
          uIntToInt (zlib.deflate (GzipImpl.writeStream stream_ data n out) out.data
            Z_NO_FLUSH).strm.avail_in,
          { data := (zlib.deflate (GzipImpl.writeStream stream_ data n out) out.data
              Z_NO_FLUSH).mem
            capacity := out.capacity
            length := out.length + (out.avail % 4294967296
              - (zlib.deflate (GzipImpl.writeStream stream_ data n out) out.data
                  Z_NO_FLUSH).strm.avail_out) },
          (zlib.deflate (GzipImpl.writeStream stream_ data n out) out.data Z_NO_FLUSH).strm⟩ := by
  have hle : out.avail % 4294967296 ≤ out.avail := Nat.mod_le _ _
  simp only [GzipImpl.Write, hok, Bool.not_false, if_true]
  have hsub := subSizeT_offered out.avail _ ho
  simp only [GzipImpl.writeStream] at hsub ⊢
  rw [hsub, Blob_IncreaseLengthBy_of_le]
  simp only [Blob.avail] at *
  omega

/-- Shared: GunzipImpl.Write after a non-error step that left no more room than offered. -/
theorem GunzipImpl_Write_of_ok (σ : Type) (zlib : Codec σ) (stream_ : z_stream σ)
    (data : List Nat) (n : Int) (out : Blob)
    (hok : IsError (zlib.inflate (GunzipImpl.writeStream stream_ data n out) out.data
      Z_NO_FLUSH).ret = false)
    (ho : (zlib.inflate (GunzipImpl.writeStream stream_ data n out) out.data
      Z_NO_FLUSH).strm.avail_out ≤ out.avail % 4294967296) :
    GunzipImpl.Write zlib stream_ data n out
      = some ⟨(zlib.inflate (GunzipImpl.writeStream stream_ data n out) out.data Z_NO_FLUSH).ret,
          uIntToInt (zlib.inflate (GunzipImpl.writeStream stream_ data n out) out.data
            Z_NO_FLUSH).strm.avail_in,
          { data := (zlib.inflate (GunzipImpl.writeStream stream_ data n out) out.data
              Z_NO_FLUSH).mem
            capacity := out.capacity
            length := out.length + (out.avail % 4294967296
              - (zlib.inflate (GunzipImpl.writeStream stream_ data n out) out.data
                  Z_NO_FLUSH).strm.avail_out) },
          (zlib.inflate (GunzipImpl.writeStream stream_ data n out) out.data Z_NO_FLUSH).strm⟩ := by
  have hle : out.avail % 4294967296 ≤ out.avail := Nat.mod_le _ _
  simp only [GunzipImpl.Write, hok, Bool.not_false, if_true]
  have hsub := subSizeT_offered out.avail _ ho
  simp only [GunzipImpl.writeStream] at hsub ⊢
  rw [hsub, Blob_IncreaseLengthBy_of_le]
  simp only [Blob.avail] at *
  omega

/-- Shared: GzipImpl.Finish after a non-error step that left no more room than offered. -/
theorem GzipImpl_Finish_of_ok (σ : Type) (zlib : Codec σ) (stream_ : z_stream σ) (out : Blob)
    (hok : IsError (zlib.deflate (GzipImpl.finishStream stream_ out) out.data
      Z_FINISH).ret = false)
    (ho : (zlib.deflate (GzipImpl.finishStream stream_ out) out.data
      Z_FINISH).strm.avail_out ≤ out.avail % 4294967296) :
    GzipImpl.Finish zlib stream_ out
      = some ⟨(zlib.deflate (GzipImpl.finishStream stream_ out) out.data Z_FINISH).ret,
          { data := (zlib.deflate (GzipImpl.finishStream stream_ out) out.data Z_FINISH).mem
            capacity := out.capacity
            length := out.length + (out.avail % 4294967296
              - (zlib.deflate (GzipImpl.finishStream stream_ out) out.data
                  Z_FINISH).strm.avail_out) },
          (zlib.deflate (GzipImpl.finishStream stream_ out) out.data Z_FINISH).strm⟩ := by
  have hle : out.avail % 4294967296 ≤ out.avail := Nat.mod_le _ _
  simp only [GzipImpl.Finish, hok, Bool.not_false, if_true]
  have hsub := subUInt_offered out.avail _ ho
  simp only [GzipImpl.finishStream] at hsub ⊢
  rw [hsub, Blob_IncreaseLengthBy_of_le]
  simp only [Blob.avail] at *
  omega

/-- Shared: GzipImpl.Write after a step with an error status. -/
theorem GzipImpl_Write_of_error (σ : Type) (zlib : Codec σ) (stream_ : z_stream σ)
    (data : List Nat) (n : Int) (out : Blob)
    (herr : IsError (zlib.deflate (GzipImpl.writeStream stream_ data n out) out.data
      Z_NO_FLUSH).ret = true) :
    GzipImpl.Write zlib stream_ data n out
      = some ⟨(zlib.deflate (GzipImpl.writeStream stream_ data n out) out.data Z_NO_FLUSH).ret,
          uIntToInt (zlib.deflate (GzipImpl.writeStream stream_ data n out) out.data
            Z_NO_FLUSH).strm.avail_in,
          { data := (zlib.deflate (GzipImpl.writeStream stream_ data n out) out.data
              Z_NO_FLUSH).mem
            capacity := out.capacity
            length := out.length },
          (zlib.deflate (GzipImpl.writeStream stream_ data n out) out.data Z_NO_FLUSH).strm⟩ := by
  simp [GzipImpl.Write, herr]

/-- Shared: GunzipImpl.Write after a step with an error status. -/
theorem GunzipImpl_Write_of_error (σ : Type) (zlib : Codec σ) (stream_ : z_stream σ)
    (data : List Nat) (n : Int) (out : Blob)
    (herr : IsError (zlib.inflate (GunzipImpl.writeStream stream_ data n out) out.data
      Z_NO_FLUSH).ret = true) :
    GunzipImpl.Write zlib stream_ data n out
      = some ⟨(zlib.inflate (GunzipImpl.writeStream stream_ data n out) out.data Z_NO_FLUSH).ret,
          uIntToInt (zlib.inflate (GunzipImpl.writeStream stream_ data n out) out.data
            Z_NO_FLUSH).strm.avail_in,
          { data := (zlib.inflate (GunzipImpl.writeStream stream_ data n out) out.data
              Z_NO_FLUSH).mem
            capacity := out.capacity
            length := out.length },
          (zlib.inflate (GunzipImpl.writeStream stream_ data n out) out.data Z_NO_FLUSH).strm⟩ := by
  simp [GunzipImpl.Write, herr]

/-- Shared: GzipImpl.Finish after a step with an error status. -/
theorem GzipImpl_Finish_of_error (σ : Type) (zlib : Codec σ) (stream_ : z_stream σ) (out : Blob)
    (herr : IsError (zlib.deflate (GzipImpl.finishStream stream_ out) out.data
      Z_FINISH).ret = true) :
    GzipImpl.Finish zlib stream_ out
      = some ⟨(zlib.deflate (GzipImpl.finishStream stream_ out) out.data Z_FINISH).ret,
          { data := (zlib.deflate (GzipImpl.finishStream stream_ out) out.data Z_FINISH).mem
            capacity := out.capacity
            length := out.length },
          (zlib.deflate (GzipImpl.finishStream stream_ out) out.data Z_FINISH).strm⟩ := by
  simp [GzipImpl.Finish, herr]

/-- C8, as stated, fails when the free room does not fit the 32-bit avail_out
of the codec: with a free room r of 4 GiB + 16 bytes the codec is offered 16,
the step is a non-error one that leaves avail_in 0 and avail_out o = 6, and the
length advances by the 10 bytes produced, not by r - o. -/
theorem Write_step_accounting_fails_on_huge_room :
    Sample.hugeBlob.avail = 4294967312
    ∧ (GzipImpl.Write Sample.storedCodec Sample.gzipStream Sample.tenBytes 10
          Sample.hugeBlob).map
        (fun w => (w.ret, IsError w.ret, w.dataLength, w.stream_.avail_out, w.out.length))
        = some (Z_OK, false, 0, 6, Sample.hugeBlob.length + 10)
    ∧ Sample.hugeBlob.length + 10 ≠ Sample.hugeBlob.length + (Sample.hugeBlob.avail - 6) := by
  refine ⟨by decide, ?_, by decide⟩
  rfl

/-- C8, amended: for a chunk length n that is a non-negative int and a
buffer with free room r, the codec is offered n bytes of input and
r mod 2^32 bytes of room at the offset of the old length; when the step
(deflate in GzipImpl.Write, inflate in GunzipImpl.Write) returns a non-error
status having left avail_in = a with a ≤ n and avail_out = o with
o ≤ r mod 2^32, Write returns that status, sets the remaining-input count
to a, and advances the length by exactly r mod 2^32 - o, which is r - o
whenever r is below 2^32. -/
theorem Write_step_accounting (σ : Type) (zlib : Codec σ) (stream_ : z_stream σ)
    (data : List Nat) (n : Int) (out : Blob) (a o : Nat)
    (hn0 : 0 ≤ n) (hn1 : n < 2147483648) (han : (a : Int) ≤ n)
    (hor : o ≤ out.avail % 4294967296) :
    ((IsError (zlib.deflate (GzipImpl.writeStream stream_ data n out) out.data
          Z_NO_FLUSH).ret = false →
      (zlib.deflate (GzipImpl.writeStream stream_ data n out) out.data
          Z_NO_FLUSH).strm.avail_in = a →
      (zlib.deflate (GzipImpl.writeStream stream_ data n out) out.data
          Z_NO_FLUSH).strm.avail_out = o →
      ((GzipImpl.writeStream stream_ data n out).avail_in : Int) = n
      ∧ (GzipImpl.writeStream stream_ data n out).avail_out = out.avail % 4294967296
      ∧ (GzipImpl.writeStream stream_ data n out).next_out = out.length
      ∧ GzipImpl.Write zlib stream_ data n out
          = some ⟨(zlib.deflate (GzipImpl.writeStream stream_ data n out) out.data
                    Z_NO_FLUSH).ret,
                  (a : Int),
                  { data := (zlib.deflate (GzipImpl.writeStream stream_ data n out) out.data
                      Z_NO_FLUSH).mem
                    capacity := out.capacity
                    length := out.length + (out.avail % 4294967296 - o) },
                  (zlib.deflate (GzipImpl.writeStream stream_ data n out) out.data
                    Z_NO_FLUSH).strm⟩)
    ∧ (IsError (zlib.inflate (GunzipImpl.writeStream stream_ data n out) out.data
          Z_NO_FLUSH).ret = false →
      (zlib.inflate (GunzipImpl.writeStream stream_ data n out) out.data
          Z_NO_FLUSH).strm.avail_in = a →
      (zlib.inflate (GunzipImpl.writeStream stream_ data n out) out.data
          Z_NO_FLUSH).strm.avail_out = o →
      ((GunzipImpl.writeStream stream_ data n out).avail_in : Int) = n
      ∧ (GunzipImpl.writeStream stream_ data n out).avail_out = out.avail % 4294967296
      ∧ (GunzipImpl.writeStream stream_ data n out).next_out = out.length
      ∧ GunzipImpl.Write zlib stream_ data n out
          = some ⟨(zlib.inflate (GunzipImpl.writeStream stream_ data n out) out.data
                    Z_NO_FLUSH).ret,
                  (a : Int),
                  { data := (zlib.inflate (GunzipImpl.writeStream stream_ data n out) out.data
                      Z_NO_FLUSH).mem
                    capacity := out.capacity
                    length := out.length + (out.avail % 4294967296 - o) },
                  (zlib.inflate (GunzipImpl.writeStream stream_ data n out) out.data
                    Z_NO_FLUSH).strm⟩)
    ∧ (out.avail < 4294967296 → out.avail % 4294967296 - o = out.avail - o)) := by
  have ha : uIntToInt a = (a : Int) := uIntToInt_of_small a (by omega)
  refine ⟨?_, ?_, ?_⟩
  · intro hok hain haout
    refine ⟨intToUInt_of_range n hn0 hn1, rfl, rfl, ?_⟩
    rw [GzipImpl_Write_of_ok σ zlib stream_ data n out hok (by rw [haout]; exact hor),
      hain, haout, ha]
  · intro hok hain haout
    refine ⟨intToUInt_of_range n hn0 hn1, rfl, rfl, ?_⟩
    rw [GunzipImpl_Write_of_ok σ zlib stream_ data n out hok (by rw [haout]; exact hor),
      hain, haout, ha]
  · intro hr
    rw [Nat.mod_eq_of_lt hr]

/-- C8 amended, at ten input bytes and 16 bytes of room with the stand-in
codec: both Write methods report 0 bytes remaining and advance the length
by 16 - 6 = 10. -/
theorem Write_step_accounting_witness :
    (GzipImpl.Write Sample.storedCodec Sample.gzipStream Sample.tenBytes 10
          Sample.smallBlob).map (fun w => (w.ret, w.dataLength, w.out.length))
        = some (Z_OK, 0, 10)
    ∧ (GunzipImpl.Write Sample.storedCodec Sample.gunzipStream Sample.tenBytes 10
          Sample.smallBlob).map (fun w => (w.ret, w.dataLength, w.out.length))
        = some (Z_OK, 0, 10) := by
  have h := Write_step_accounting (Option Int) Sample.storedCodec Sample.gzipStream
    Sample.tenBytes 10 Sample.smallBlob 0 6 (by decide) (by decide) (by decide) (by decide)
  have g := Write_step_accounting (Option Int) Sample.storedCodec Sample.gunzipStream
    Sample.tenBytes 10 Sample.smallBlob 0 6 (by decide) (by decide) (by decide) (by decide)
  constructor
  · rw [(h.1 rfl rfl rfl).2.2.2]
    rfl
  · rw [(g.2.1 rfl rfl rfl).2.2.2]
    rfl

/-- C9: if length ≤ capacity holds before the call and the codec never leaves
more output room than it was given, then GzipImpl.Write, GzipImpl.Finish,
GunzipImpl.Write and GunzipImpl.Finish all return with the capacity as it
was, length ≤ capacity, a length that did not decrease, and a committed
amount within the append room that was available. -/
theorem buffer_invariant_preserved (σ : Type) (zlib : Codec σ) (stream_ : z_stream σ)
    (data : List Nat) (n : Int) (out : Blob)
    (hinv : out.length ≤ out.capacity)
    (hdeflate : ∀ (s : z_stream σ) (mem : Nat → Nat) (flush : Int),
      (zlib.deflate s mem flush).strm.avail_out ≤ s.avail_out)
    (hinflate : ∀ (s : z_stream σ) (mem : Nat → Nat) (flush : Int),
      (zlib.inflate s mem flush).strm.avail_out ≤ s.avail_out) :
    (∃ w, GzipImpl.Write zlib stream_ data n out = some w
        ∧ w.out.capacity = out.capacity ∧ w.out.length ≤ w.out.capacity
        ∧ out.length ≤ w.out.length ∧ w.out.length - out.length ≤ out.avail)
    ∧ (∃ f, GzipImpl.Finish zlib stream_ out = some f
        ∧ f.out.capacity = out.capacity ∧ f.out.length ≤ f.out.capacity
        ∧ out.length ≤ f.out.length ∧ f.out.length - out.length ≤ out.avail)
    ∧ (∃ w, GunzipImpl.Write zlib stream_ data n out = some w
        ∧ w.out.capacity = out.capacity ∧ w.out.length ≤ w.out.capacity
        ∧ out.length ≤ w.out.length ∧ w.out.length - out.length ≤ out.avail)
    ∧ ((GunzipImpl.Finish stream_ out).out.capacity = out.capacity
        ∧ (GunzipImpl.Finish stream_ out).out.length ≤ (GunzipImpl.Finish stream_ out).out.capacity
        ∧ out.length ≤ (GunzipImpl.Finish stream_ out).out.length
        ∧ (GunzipImpl.Finish stream_ out).out.length - out.length ≤ out.avail) := by
  have hle : out.avail % 4294967296 ≤ out.avail := Nat.mod_le _ _
  have hav : out.avail = out.capacity - out.length := rfl
  refine ⟨?_, ?_, ?_, ?_⟩
  · have ho := hdeflate (GzipImpl.writeStream stream_ data n out) out.data Z_NO_FLUSH
    have ho2 : (zlib.deflate (GzipImpl.writeStream stream_ data n out) out.data
        Z_NO_FLUSH).strm.avail_out ≤ out.avail % 4294967296 := ho
    cases hret : IsError (zlib.deflate (GzipImpl.writeStream stream_ data n out) out.data
        Z_NO_FLUSH).ret
    · refine ⟨_, GzipImpl_Write_of_ok σ zlib stream_ data n out hret ho2, rfl, ?_, ?_, ?_⟩ <;>
        simp only <;> omega
    · refine ⟨_, GzipImpl_Write_of_error σ zlib stream_ data n out hret, rfl, ?_, ?_, ?_⟩ <;>
        simp only <;> omega
  · have ho := hdeflate (GzipImpl.finishStream stream_ out) out.data Z_FINISH
    have ho2 : (zlib.deflate (GzipImpl.finishStream stream_ out) out.data
        Z_FINISH).strm.avail_out ≤ out.avail % 4294967296 := ho
    cases hret : IsError (zlib.deflate (GzipImpl.finishStream stream_ out) out.data Z_FINISH).ret
    · refine ⟨_, GzipImpl_Finish_of_ok σ zlib stream_ out hret ho2, rfl, ?_, ?_, ?_⟩ <;>
        simp only <;> omega
    · refine ⟨_, GzipImpl_Finish_of_error σ zlib stream_ out hret, rfl, ?_, ?_, ?_⟩ <;>
        simp only <;> omega
  · have ho := hinflate (GunzipImpl.writeStream stream_ data n out) out.data Z_NO_FLUSH
    have ho2 : (zlib.inflate (GunzipImpl.writeStream stream_ data n out) out.data
        Z_NO_FLUSH).strm.avail_out ≤ out.avail % 4294967296 := ho
    cases hret : IsError (zlib.inflate (GunzipImpl.writeStream stream_ data n out) out.data
        Z_NO_FLUSH).ret
    · refine ⟨_, GunzipImpl_Write_of_ok σ zlib stream_ data n out hret ho2, rfl, ?_, ?_, ?_⟩ <;>
        simp only <;> omega
    · refine ⟨_, GunzipImpl_Write_of_error σ zlib stream_ data n out hret, rfl, ?_, ?_, ?_⟩ <;>
        simp only <;> omega
  · refine ⟨rfl, ?_, ?_, ?_⟩ <;> simp only [GunzipImpl.Finish] <;> omega

/-- Shared: the stand-in codec never leaves more output room than it was given (deflate). -/
theorem storedCodec_deflate_avail_out (s : z_stream (Option Int)) (mem : Nat → Nat)
    (flush : Int) : (Sample.storedCodec.deflate s mem flush).strm.avail_out ≤ s.avail_out := by
  simp only [Sample.storedCodec, Sample.copyStep]
  split_ifs <;> simp

/-- Shared: the stand-in codec never leaves more output room than it was given (inflate). -/
theorem storedCodec_inflate_avail_out (s : z_stream (Option Int)) (mem : Nat → Nat)
    (flush : Int) : (Sample.storedCodec.inflate s mem flush).strm.avail_out ≤ s.avail_out := by
  simp only [Sample.storedCodec, Sample.copyStep]
  split
  · simp
  · split_ifs <;> simp
  · simp

/-- C9 at ten input bytes and a buffer of 4 GiB + 16 bytes with the stand-in codec. -/
theorem buffer_invariant_preserved_witness :
    Sample.hugeBlob.length ≤ Sample.hugeBlob.capacity
    ∧ (∃ w, GzipImpl.Write Sample.storedCodec Sample.gzipStream Sample.tenBytes 10
          Sample.hugeBlob = some w
        ∧ w.out.capacity = Sample.hugeBlob.capacity ∧ w.out.length ≤ w.out.capacity
        ∧ Sample.hugeBlob.length ≤ w.out.length
        ∧ w.out.length - Sample.hugeBlob.length ≤ Sample.hugeBlob.avail) :=
  ⟨by decide,
   (buffer_invariant_preserved (Option Int) Sample.storedCodec Sample.gzipStream
      Sample.tenBytes 10 Sample.hugeBlob (by decide) storedCodec_deflate_avail_out
      storedCodec_inflate_avail_out).1⟩

/-- C10: when the codec step returns a status for which IsError is true (as
it is for Z_BUF_ERROR and Z_DATA_ERROR), GzipImpl.Write, GunzipImpl.Write and
GzipImpl.Finish return that status unchanged and keep the length and the
capacity of the buffer, whose storage is as the codec left it; Write still
assigns the avail_in of the codec, converted to int, to the remaining-input
count, which is avail_in itself when that is below 2^31. -/
theorem no_commit_on_error (σ : Type) (zlib : Codec σ) (stream_ : z_stream σ)
    (data : List Nat) (n : Int) (out : Blob) :
    (IsError (zlib.deflate (GzipImpl.writeStream stream_ data n out) out.data
        Z_NO_FLUSH).ret = true →
      GzipImpl.Write zlib stream_ data n out
        = some ⟨(zlib.deflate (GzipImpl.writeStream stream_ data n out) out.data
                  Z_NO_FLUSH).ret,
                uIntToInt (zlib.deflate (GzipImpl.writeStream stream_ data n out) out.data
                  Z_NO_FLUSH).strm.avail_in,
                { data := (zlib.deflate (GzipImpl.writeStream stream_ data n out) out.data
                    Z_NO_FLUSH).mem
                  capacity := out.capacity
                  length := out.length },
                (zlib.deflate (GzipImpl.writeStream stream_ data n out) out.data
                  Z_NO_FLUSH).strm⟩)
    ∧ (IsError (zlib.inflate (GunzipImpl.writeStream stream_ data n out) out.data
        Z_NO_FLUSH).ret = true →
      GunzipImpl.Write zlib stream_ data n out
        = some ⟨(zlib.inflate (GunzipImpl.writeStream stream_ data n out) out.data
                  Z_NO_FLUSH).ret,
                uIntToInt (zlib.inflate (GunzipImpl.writeStream stream_ data n out) out.data
                  Z_NO_FLUSH).strm.avail_in,
                { data := (zlib.inflate (GunzipImpl.writeStream stream_ data n out) out.data
                    Z_NO_FLUSH).mem
                  capacity := out.capacity
                  length := out.length },
                (zlib.inflate (GunzipImpl.writeStream stream_ data n out) out.data
                  Z_NO_FLUSH).strm⟩)
    ∧ (IsError (zlib.deflate (GzipImpl.finishStream stream_ out) out.data Z_FINISH).ret = true →
      GzipImpl.Finish zlib stream_ out
        = some ⟨(zlib.deflate (GzipImpl.finishStream stream_ out) out.data Z_FINISH).ret,
                { data := (zlib.deflate (GzipImpl.finishStream stream_ out) out.data
                    Z_FINISH).mem
                  capacity := out.capacity
                  length := out.length },
                (zlib.deflate (GzipImpl.finishStream stream_ out) out.data Z_FINISH).strm⟩)
    ∧ (∀ a : Nat, a < 2147483648 → uIntToInt a = (a : Int))
    ∧ IsError Z_BUF_ERROR = true
    ∧ IsError Z_DATA_ERROR = true :=
  ⟨GzipImpl_Write_of_error σ zlib stream_ data n out,
   GunzipImpl_Write_of_error σ zlib stream_ data n out,
   GzipImpl_Finish_of_error σ zlib stream_ out,
   uIntToInt_of_small, by decide, by decide⟩

/-- C10 with the stand-in codec: deflate without output room answers
Z_BUF_ERROR to Write and Finish, inflate set up for zlib framing answers
Z_DATA_ERROR to the gzip magic; the length stays 16, respectively 0. -/
theorem no_commit_on_error_witness :
    (GzipImpl.Write Sample.storedCodec Sample.gzipStream Sample.tenBytes 10
          Sample.fullBlob).map (fun w => (w.ret, w.dataLength, w.out.length))
        = some (Z_BUF_ERROR, 10, 16)
    ∧ (GunzipImpl.Write Sample.storedCodec Sample.gunzipStream [31, 139, 8, 0] 4
          Sample.smallBlob).map (fun w => (w.ret, w.dataLength, w.out.length))
        = some (Z_DATA_ERROR, 4, 0)
    ∧ (GzipImpl.Finish Sample.storedCodec Sample.gzipStream Sample.fullBlob).map
          (fun f => (f.ret, f.out.length))
        = some (Z_BUF_ERROR, 16) := by
  refine ⟨?_, ?_, ?_⟩
  · rw [(no_commit_on_error (Option Int) Sample.storedCodec Sample.gzipStream
      Sample.tenBytes 10 Sample.fullBlob).1 rfl]
    rfl
  · rw [(no_commit_on_error (Option Int) Sample.storedCodec Sample.gunzipStream
      [31, 139, 8, 0] 4 Sample.smallBlob).2.1 rfl]
    rfl
  · rw [(no_commit_on_error (Option Int) Sample.storedCodec Sample.gzipStream
      Sample.tenBytes 10 Sample.fullBlob).2.2.1 rfl]
    rfl

/-! ## Theorems: the round trip -/

/-- C1, evaluated: GunzipImpl.Init sets the codec up with window bits
MAX_WBITS.  For every codec that, so set up, answers Z_DATA_ERROR to input
opening with the gzip magic bytes 1f 8b (as zlib does for window bits 8 to
15, which accept zlib framing only), the first GunzipImpl.Write on a
gzip-framed stream returns Z_DATA_ERROR, an error status with the exception
of DataError, and commits no output: the bytes compressed by GzipImpl do not
come back. -/
theorem Gunzip_rejects_gzip_framed_input (σ : Type) (zlib : Codec σ)
    (stream_ : z_stream σ) (args : List Value) (rest : List Nat) (n : Int) (out : Blob)
    (hzlib : ∀ (t : z_stream σ) (mem : Nat → Nat),
      t.state = (zlib.inflateInit2 (GunzipImpl.initStream stream_) MAX_WBITS).2.state →
      t.next_in = some (31 :: 139 :: rest) →
      (zlib.inflate t mem Z_NO_FLUSH).ret = Z_DATA_ERROR) :
    ∃ w, GunzipImpl.Write zlib (GunzipImpl.Init zlib stream_ args).2 (31 :: 139 :: rest) n out
          = some w
      ∧ w.ret = Z_DATA_ERROR
      ∧ IsError w.ret = true
      ∧ GetException w.ret = Value.Error "Z_DATA_ERROR: Input data corrupted."
      ∧ w.out.length = out.length := by
  have hstate : (GunzipImpl.Init zlib stream_ args).2.state
      = (zlib.inflateInit2 (GunzipImpl.initStream stream_) MAX_WBITS).2.state := by
    simp only [GunzipImpl.Init]
    split_ifs <;> rfl
  have hret := hzlib
    (GunzipImpl.writeStream (GunzipImpl.Init zlib stream_ args).2 (31 :: 139 :: rest) n out)
    out.data hstate rfl
  have herr : IsError (zlib.inflate
      (GunzipImpl.writeStream (GunzipImpl.Init zlib stream_ args).2 (31 :: 139 :: rest) n out)
      out.data Z_NO_FLUSH).ret = true := by
    rw [hret]
    decide
  have hx : GetException Z_DATA_ERROR = Value.Error "Z_DATA_ERROR: Input data corrupted." := by
    simp [GetException, IsError, Z_DATA_ERROR, Z_OK, Z_STREAM_END, Z_NEED_DICT, Z_ERRNO,
      Z_STREAM_ERROR, DataError]
  refine ⟨_, GunzipImpl_Write_of_error σ zlib _ _ n out herr, hret, herr, ?_, rfl⟩
  simp only [hret, hx]

/-- C1 with the stand-in codec, at the first four bytes of a gzip stream. -/
theorem Gunzip_rejects_gzip_framed_input_witness :
    ∃ w, GunzipImpl.Write Sample.storedCodec
          (GunzipImpl.Init Sample.storedCodec Sample.freshStream []).2 (31 :: 139 :: [8, 0]) 4
          Sample.smallBlob = some w
      ∧ w.ret = Z_DATA_ERROR
      ∧ IsError w.ret = true
      ∧ GetException w.ret = Value.Error "Z_DATA_ERROR: Input data corrupted."
      ∧ w.out.length = Sample.smallBlob.length :=
  Gunzip_rejects_gzip_framed_input (Option Int) Sample.storedCodec Sample.freshStream []
    [8, 0] 4 Sample.smallBlob
    (by
      intro t mem hstate hin
      have hs : t.state = some 15 := hstate
      simp [Sample.storedCodec, hs, hin])

end NodeCompress
